import Mathlib

/-!
Verification development for a KuCoin REST API client (Node.js).

The embedding models the client's request pipeline from `src/index.js`:
canonical query-string construction, request signing (HMAC-SHA-256 over the
base64 of the string to sign), header/request assembly in `rawRequest`, the
response-envelope handling, and the thin endpoint wrapper methods.

Bytes are modelled as `Nat` values below 256, 32-bit machine words as `Nat`
values reduced modulo 2^32.
-/

set_option maxRecDepth 100000

namespace Kucoin

/-! ### 32-bit word primitives (Nat, reduced mod 2^32) -/

/-- Mask for 32-bit words. -/
def w32 : Nat := 4294967296

/-- Rotate a 32-bit word right by `n` bits. -/
def rotr (n x : Nat) : Nat := ((x >>> n) ||| (x <<< (32 - n))) % w32

/-- Bitwise complement of a 32-bit word. -/
def comp32 (x : Nat) : Nat := x ^^^ 4294967295

/-! ### SHA-256 (FIPS 180-4), byte-level, from Node `crypto` semantics -/

/-- First 32 bits of the fractional parts of the cube roots of the first
64 primes: the SHA-256 round constants. -/
def sha256K : List Nat :=
  [1116352408, 1899447441, 3049323471, 3921009573, 961987163,
   1508970993, 2453635748, 2870763221, 3624381080, 310598401,
   607225278, 1426881987, 1925078388, 2162078206, 2614888103,
   3248222580, 3835390401, 4022224774, 264347078, 604807628,
   770255983, 1249150122, 1555081692, 1996064986, 2554220882,
   2821834349, 2952996808, 3210313671, 3336571891, 3584528711,
   113926993, 338241895, 666307205, 773529912, 1294757372,
   1396182291, 1695183700, 1986661051, 2177026350, 2456956037,
   2730485921, 2820302411, 3259730800, 3345764771, 3516065817,
   3600352804, 4094571909, 275423344, 430227734, 506948616,
   659060556, 883997877, 958139571, 1322822218, 1537002063,
   1747873779, 1955562222, 2024104815, 2227730452, 2361852424,
   2428436474, 2756734187, 3204031479, 3329325298]

/-- SHA-256 small sigma 0. -/
def ssig0 (x : Nat) : Nat := (rotr 7 x) ^^^ (rotr 18 x) ^^^ (x >>> 3)

/-- SHA-256 small sigma 1. -/
def ssig1 (x : Nat) : Nat := (rotr 17 x) ^^^ (rotr 19 x) ^^^ (x >>> 10)

/-- SHA-256 big sigma 0. -/
def bsig0 (x : Nat) : Nat := (rotr 2 x) ^^^ (rotr 13 x) ^^^ (rotr 22 x)

/-- SHA-256 big sigma 1. -/
def bsig1 (x : Nat) : Nat := (rotr 6 x) ^^^ (rotr 11 x) ^^^ (rotr 25 x)

/-- SHA-256 choice function. -/
def ch (x y z : Nat) : Nat := (x &&& y) ^^^ ((comp32 x) &&& z)

/-- SHA-256 majority function. -/
def maj (x y z : Nat) : Nat := (x &&& y) ^^^ (x &&& z) ^^^ (y &&& z)

/-- Working state of the SHA-256 compression function: eight 32-bit words. -/
structure Hash8 where
  a : Nat
  b : Nat
  c : Nat
  d : Nat
  e : Nat
  f : Nat
  g : Nat
  h : Nat
deriving DecidableEq

/-- Initial SHA-256 hash value. -/
def sha256Init : Hash8 :=
  ⟨1779033703, 3144134277, 1013904242, 2773480762,
   1359893119, 2600822924, 528734635, 1541459225⟩

/-- Message-schedule extension: `win` holds the most recent 16 schedule words,
most recent first; produces the next `n` words in order. -/
def extendSchedule : Nat → List Nat → List Nat
  | 0, _ => []
  | n + 1, win =>
    let x := (ssig1 (win.getD 1 0) + win.getD 6 0 + ssig0 (win.getD 14 0) +
              win.getD 15 0) % w32
    x :: extendSchedule n (x :: win.take 15)

/-- One SHA-256 round: consumes one (round constant, schedule word) pair. -/
def sha256Round (st : Hash8) (kw : Nat × Nat) : Hash8 :=
  let t1 := (st.h + bsig1 st.e + ch st.e st.f st.g + kw.1 + kw.2) % w32
  let t2 := (bsig0 st.a + maj st.a st.b st.c) % w32
  ⟨(t1 + t2) % w32, st.a, st.b, st.c, (st.d + t1) % w32, st.e, st.f, st.g⟩

/-- Run the 64 SHA-256 rounds over the zipped (constant, schedule) list. -/
def sha256Rounds : Hash8 → List (Nat × Nat) → Hash8
  | st, [] => st
  | st, kw :: rest => sha256Rounds (sha256Round st kw) rest

/-- Compress one 512-bit block, given as its 16 big-endian 32-bit words. -/
def sha256Compress (st : Hash8) (ws : List Nat) : Hash8 :=
  let w := ws ++ extendSchedule 48 ws.reverse
  let f := sha256Rounds st (List.zip sha256K w)
  ⟨(st.a + f.a) % w32, (st.b + f.b) % w32, (st.c + f.c) % w32,
   (st.d + f.d) % w32, (st.e + f.e) % w32, (st.f + f.f) % w32,
   (st.g + f.g) % w32, (st.h + f.h) % w32⟩

/-- Group a byte list into big-endian 32-bit words (the input length is a
multiple of 4 after padding; a ragged tail would be dropped). -/
def bytesToWords : List Nat → List Nat
  | b0 :: b1 :: b2 :: b3 :: rest =>
    (((b0 * 256 + b1) * 256 + b2) * 256 + b3) :: bytesToWords rest
  | _ => []

/-- Fold the compression function over the word stream, 16 words per block. -/
def sha256Blocks : Hash8 → List Nat → Hash8
  | st, w0 :: w1 :: w2 :: w3 :: w4 :: w5 :: w6 :: w7 :: w8 :: w9 :: w10 ::
        w11 :: w12 :: w13 :: w14 :: w15 :: rest =>
    sha256Blocks
      (sha256Compress st
        [w0, w1, w2, w3, w4, w5, w6, w7, w8, w9, w10, w11, w12, w13, w14, w15])
      rest
  | st, _ => st

/-- Big-endian bytes of `len` bits of `x`, most significant first. -/
def beBytes : Nat → Nat → List Nat
  | 0, _ => []
  | n + 1, x => ((x >>> (n * 8)) % 256) :: beBytes n x

/-- SHA-256 padding: append `0x80`, zeros to 56 mod 64 bytes, then the
bit length as a 64-bit big-endian integer. -/
def sha256Pad (msg : List Nat) : List Nat :=
  msg ++ 0x80 :: List.replicate ((119 - msg.length % 64) % 64) 0 ++
    beBytes 8 (msg.length * 8)

/-- Serialize the final hash state as 32 big-endian bytes. -/
def hash8Bytes (st : Hash8) : List Nat :=
  beBytes 4 st.a ++ beBytes 4 st.b ++ beBytes 4 st.c ++ beBytes 4 st.d ++
  beBytes 4 st.e ++ beBytes 4 st.f ++ beBytes 4 st.g ++ beBytes 4 st.h

/-- SHA-256 digest (32 bytes) of a byte list. -/
def sha256 (msg : List Nat) : List Nat :=
  hash8Bytes (sha256Blocks sha256Init (bytesToWords (sha256Pad msg)))

/-! ### Text encodings: UTF-8 bytes, UTF-16 code units, base64, hex -/

/-- UTF-8 encoding of a single Unicode scalar value (1 to 4 bytes).
Node's `Buffer` constructor applied to a string uses this encoding. -/
def utf8EncodeChar (c : Char) : List Nat :=
  let n := c.toNat
  if n < 128 then [n]
  else if n < 2048 then [192 + n / 64, 128 + n % 64]
  else if n < 65536 then [224 + n / 4096, 128 + n / 64 % 64, 128 + n % 64]
  else [240 + n / 262144, 128 + n / 4096 % 64, 128 + n / 64 % 64, 128 + n % 64]

/-- UTF-8 bytes of a character list. -/
def utf8List : List Char → List Nat
  | [] => []
  | c :: cs => utf8EncodeChar c ++ utf8List cs

/-- UTF-8 bytes of a string. -/
def utf8Bytes (s : String) : List Nat := utf8List s.data

/-- UTF-16 code units of a single Unicode scalar value: one unit for the
basic plane, a surrogate pair for astral characters. JavaScript strings are
sequences of such units and compare unit by unit. -/
def utf16EncodeChar (c : Char) : List Nat :=
  let n := c.toNat
  if n < 65536 then [n]
  else [55296 + (n - 65536) / 1024, 56320 + (n - 65536) % 1024]

/-- UTF-16 code units of a character list. -/
def utf16List : List Char → List Nat
  | [] => []
  | c :: cs => utf16EncodeChar c ++ utf16List cs

/-- UTF-16 code units of a string. -/
def utf16Units (s : String) : List Nat := utf16List s.data

/-- Standard base64 alphabet. -/
def b64Alphabet : List Char :=
  "ABCDEFGHIJKLMNOPQRSTUVWXYZabcdefghijklmnopqrstuvwxyz0123456789+/".data

/-- Character for a 6-bit group. -/
def b64Char (n : Nat) : Char := b64Alphabet.getD n 'A'

/-- Base64 of a byte list, standard alphabet with `=` padding: the encoding
produced by Node's `buffer.toString` with the base64 target. -/
def base64Chars : List Nat → List Char
  | [] => []
  | [b0] => [b64Char (b0 / 4), b64Char (b0 % 4 * 16), '=', '=']
  | [b0, b1] =>
    [b64Char (b0 / 4), b64Char (b0 % 4 * 16 + b1 / 16), b64Char (b1 % 16 * 4),
     '=']
  | b0 :: b1 :: b2 :: rest =>
    b64Char (b0 / 4) :: b64Char (b0 % 4 * 16 + b1 / 16) ::
    b64Char (b1 % 16 * 4 + b2 / 64) :: b64Char (b2 % 64) :: base64Chars rest

/-- Base64 of a byte list, as a string. -/
def base64Encode (bs : List Nat) : String := String.mk (base64Chars bs)

/-- Lowercase hex digit for a 4-bit value. -/
def hexDigit (n : Nat) : Char := "0123456789abcdef".data.getD n '0'

/-- Lowercase hex of a byte list: the encoding produced by Node's
`hash.digest` with the hex target. -/
def hexChars : List Nat → List Char
  | [] => []
  | b :: rest => hexDigit (b / 16) :: hexDigit (b % 16) :: hexChars rest

/-- Lowercase hex of a byte list, as a string. -/
def hexEncode (bs : List Nat) : String := String.mk (hexChars bs)

/-! ### HMAC-SHA-256 (RFC 2104), as implemented by Node `crypto.createHmac` -/

/-- HMAC-SHA-256 of `msg` under `key`, both byte lists: keys longer than the
64-byte block are first hashed, the key is zero-padded to 64 bytes, and the
digest is SHA-256 over opad-key ++ SHA-256 over ipad-key ++ message. -/
def hmacSha256 (key msg : List Nat) : List Nat :=
  let k0 := if 64 < key.length then sha256 key else key
  let kp := k0 ++ List.replicate (64 - k0.length) 0
  sha256 (kp.map (fun b => b ^^^ 92) ++
    sha256 (kp.map (fun b => b ^^^ 54) ++ msg))

/-! ### JavaScript scalar values and parameter mappings

Request parameters in the client are JavaScript object properties whose
values are strings, numbers, arrays of strings (only `symbols` in
`getExchangeRates`), or `undefined`. String conversion follows JavaScript
semantics: arrays join with commas, `undefined` prints as the word
`undefined`, integers print in decimal. -/

/-- JavaScript scalar value, as used for request parameters. -/
inductive JVal where
  | undef : JVal
  | str : String → JVal
  | num : Int → JVal
  | arr : List String → JVal
deriving DecidableEq

/-- JavaScript string conversion, as applied by the `+` and `join` operators. -/
def JVal.toStr : JVal → String
  | .undef => "undefined"
  | .str s => s
  | .num n => toString n
  | .arr xs => String.intercalate "," xs

/-- JavaScript truthiness of a value. -/
def JVal.truthy : JVal → Bool
  | .undef => false
  | .str s => !(s == "")
  | .num n => !(n == 0)
  | .arr _ => true

/-- Parameter mapping: an association list with distinct keys, kept in
property insertion order as a JavaScript object would. -/
abbrev Params := List (String × JVal)

/-- Property read: the first binding of the key, or `undefined`. -/
def jsGet : Params → String → JVal
  | [], _ => .undef
  | (k', v) :: rest, k => if k' = k then v else jsGet rest k

/-- Property write: overwrite the existing binding in place, or append a new
binding at the end, as JavaScript property assignment does. -/
def jsSet : Params → String → JVal → Params
  | [], k, v => [(k, v)]
  | (k', v') :: rest, k, v =>
    if k' = k then (k, v) :: rest else (k', v') :: jsSet rest k v

/-! ### String comparison

JavaScript's default `Array.prototype.sort` compares strings by their
sequences of UTF-16 code units (ECMA-262 `SortCompare` / abstract relational
comparison). The spec instead words the order as byte-value order, which for
Unicode text means UTF-8 bytes; the two agree on ASCII but diverge when a
string mixes upper-BMP characters with astral-plane characters. Both orders
are defined here. -/

/-- Lexicographic order on `Nat` lists, as a boolean. -/
def natListLe : List Nat → List Nat → Bool
  | [], _ => true
  | _ :: _, [] => false
  | x :: xs, y :: ys =>
    if x < y then true else if y < x then false else natListLe xs ys

/-- JavaScript string order: lexicographic on UTF-16 code units. -/
def jsLe (a b : String) : Prop := natListLe (utf16Units a) (utf16Units b) = true

instance jsLe.instDecidableRel : DecidableRel jsLe := fun a b =>
  inferInstanceAs (Decidable (natListLe (utf16Units a) (utf16Units b) = true))

/-- Byte-value string order: lexicographic on UTF-8 bytes (the order the
spec's words describe). -/
def byteLe (a b : String) : Prop :=
  natListLe (utf8Bytes a) (utf8Bytes b) = true

instance byteLe.instDecidableRel : DecidableRel byteLe := fun a b =>
  inferInstanceAs (Decidable (natListLe (utf8Bytes a) (utf8Bytes b) = true))

/-! ### Canonical query string (`rawRequest`, src/index.js lines 45-55) -/

/-- Format one parameter entry the way the source does:
`key + '=' + params[key]`. -/
def formatEntry (kv : String × JVal) : String := kv.1 ++ "=" ++ kv.2.toStr

/-- Canonical query string, from the source: format every entry, sort with
JavaScript's default string sort, join with `&`; an absent mapping (the
wrapper passed no `params` argument) yields the empty string. The source's
`queryString.sort()` is modelled by insertion sort under `jsLe`; the result
is the unique `jsLe`-sorted permutation, so the choice of algorithm does not
matter (see `canonicalQueryString_perm_invariant`). -/
def canonicalQueryString : Option Params → String
  | none => ""
  | some ps =>
    String.intercalate "&" (List.insertionSort jsLe (ps.map formatEntry))

/-- Modelled from the spec: the canonical query string as the spec words it,
with the entry strings sorted lexicographically by byte value (UTF-8). -/
def canonicalQueryStringSpec : Option Params → String
  | none => ""
  | some ps =>
    String.intercalate "&" (List.insertionSort byteLe (ps.map formatEntry))

/-! ### Request signature (`getSignature`, src/index.js lines 106-113) -/

/-- String to sign: `path + '/' + nonce + '/' + queryString`, the nonce in
decimal as JavaScript number-to-string conversion produces it. -/
def strForSign (path queryString : String) (nonce : Nat) : String :=
  path ++ "/" ++ toString nonce ++ "/" ++ queryString

/-- Request signature from the source: base64 of the UTF-8 bytes of the
string to sign, then hex of the SHA-256 HMAC of that base64 text keyed by
the API secret. -/
def getSignature (apiSecret path queryString : String) (nonce : Nat) : String :=
  let signatureStr := base64Encode (utf8Bytes (strForSign path queryString nonce))
  hexEncode (hmacSha256 (utf8Bytes apiSecret) (utf8Bytes signatureStr))

/-- Modelled from the spec: the signature as the spec words it in one
breath, the lowercase hex encoding of the SHA-256 HMAC, keyed by the secret,
of the base64 encoding of the UTF-8 bytes of
`path + "/" + nonce + "/" + canonicalQueryString`. -/
def signatureSpec (secret path queryString : String) (nonce : Nat) : String :=
  hexEncode (hmacSha256 (utf8Bytes secret)
    (utf8Bytes (base64Encode
      (utf8Bytes (path ++ "/" ++ toString nonce ++ "/" ++ queryString)))))

/-! ### Request assembly (`rawRequest`, src/index.js lines 41-71) -/

/-- HTTP verb used by the client. -/
inductive Method where
  | get : Method
  | post : Method
deriving DecidableEq

/-- Fixed API version segment, `this.path_prefix` in the constructor. -/
def pathPrefix : String := "/v1"

/-- Options passed to the HTTP client: request path and headers. Header
values are modelled as their string forms (the nonce header carries a
JavaScript number, serialized in decimal on the wire). -/
structure ReqOptions where
  path : String
  headers : List (String × String)
deriving DecidableEq

/-- Body of the outbound call: GET passes no body, POST passes the literal
empty object `\x7b\x7d`. -/
inductive ReqBody where
  | noBody : ReqBody
  | emptyObject : ReqBody
deriving DecidableEq

/-- An outbound HTTP request as handed to the transport. -/
structure OutRequest where
  options : ReqOptions
  body : ReqBody
deriving DecidableEq

/-- The JSON content-type header attached to every request. -/
def contentTypeHeader : String × String := ("Content-Type", "application/json")

/-- Assemble the outbound request exactly as `rawRequest` does. The nonce is
an input: the source reads the clock (`new Date().getTime()`) once per call
and uses that single value in both the header and the signature. -/
def buildRequest (apiKey apiSecret : String) (method : Method)
    (endpoint : String) (signed : Bool) (params : Option Params)
    (nonce : Nat) : OutRequest :=
  let path := pathPrefix ++ endpoint
  let queryString := canonicalQueryString params
  let headers :=
    if signed then
      [contentTypeHeader,
       ("KC-API-KEY", apiKey),
       ("KC-API-NONCE", toString nonce),
       ("KC-API-SIGNATURE", getSignature apiSecret path queryString nonce)]
    else
      [contentTypeHeader]
  { options :=
      { path := path ++ (if queryString = "" then "" else "?" ++ queryString),
        headers := headers },
    body := match method with | .post => .emptyObject | .get => .noBody }

/-! ### Response handling (`rawRequest`, src/index.js lines 72-95) -/

/-- Decoded response envelope of the remote service; the payload type is a
parameter because the dispatcher treats it as opaque. -/
structure Envelope (δ : Type) where
  success : Bool
  code : String
  msg : String
  timestamp : Nat
  data : δ

/-- The two failure kinds of a call: a transport error carried unchanged, or
a well-formed envelope with `success` false, carried in full. -/
inductive CallFailure (ε δ : Type) where
  | transport : ε → CallFailure ε δ
  | api : Envelope δ → CallFailure ε δ

/-- Callback body shared by the GET and POST branches of `rawRequest`: a
transport error rejects with that error unchanged; otherwise an envelope
with `success` false rejects with the full envelope, and an envelope with
`success` true resolves with the full envelope. -/
def handleResponse {ε δ : Type} :
    Except ε (Envelope δ) → Except (CallFailure ε δ) (Envelope δ)
  | .error e => .error (.transport e)
  | .ok obj => if obj.success then .ok obj else .error (.api obj)

/-- The whole of `rawRequest`: build the request, hand it to the transport
exactly once, classify the outcome. -/
def rawRequest {ε δ : Type} (apiKey apiSecret : String) (method : Method)
    (endpoint : String) (signed : Bool) (params : Option Params) (nonce : Nat)
    (transport : OutRequest → Except ε (Envelope δ)) :
    Except (CallFailure ε δ) (Envelope δ) :=
  handleResponse
    (transport (buildRequest apiKey apiSecret method endpoint signed params nonce))

/-! ### Endpoint wrappers (src/index.js lines 186-492)

Each wrapper is modelled by the request it issues together with the caller's
parameter mapping as it stands after the wrapper ran: the source mutates the
caller-supplied object in place before dispatching, so the mapping the
request is built from and the mapping the caller still holds are one and the
same object. -/

/-- Result of running a parameter-taking wrapper: the caller's mapping after
the call, and the outbound request. -/
structure WrapperCall where
  callerParams : Params
  request : OutRequest
deriving DecidableEq

/-- Comma join of the `symbols` array; the documented input type has
`symbols` an array of strings (or absent), and on any other value the
original JavaScript would throw at the `join` call. -/
def joinIfArray : JVal → String
  | .arr xs => String.intercalate "," xs
  | _ => ""

/-- Parameter mutation of `getExchangeRates`:
`params.coins = (params.symbols ? params.symbols.join(',') : '')`. -/
def getExchangeRatesParams (p : Params) : Params :=
  jsSet p "coins"
    (.str (if (jsGet p "symbols").truthy then joinIfArray (jsGet p "symbols")
           else ""))

/-- The `getExchangeRates` wrapper (GET `/open/currencies`, unsigned). -/
def getExchangeRates (apiKey apiSecret : String) (p : Params) (nonce : Nat) :
    WrapperCall :=
  let p' := getExchangeRatesParams p
  ⟨p', buildRequest apiKey apiSecret .get "/open/currencies" false (some p') nonce⟩

/-- Parameter mutation of `createOrder`: `params.symbol = params.pair`. -/
def createOrderParams (p : Params) : Params := jsSet p "symbol" (jsGet p "pair")

/-- The `createOrder` wrapper (POST `/order`, signed). -/
def createOrder (apiKey apiSecret : String) (p : Params) (nonce : Nat) :
    WrapperCall :=
  let p' := createOrderParams p
  ⟨p', buildRequest apiKey apiSecret .post "/order" true (some p') nonce⟩

/-- Parameter mutation of `createWithdrawal`: `params.coin = params.symbol`. -/
def createWithdrawalParams (p : Params) : Params :=
  jsSet p "coin" (jsGet p "symbol")

/-- The `createWithdrawal` wrapper (POST
`/account/` + symbol + `/withdraw/apply`, signed). -/
def createWithdrawal (apiKey apiSecret : String) (p : Params) (nonce : Nat) :
    WrapperCall :=
  let p' := createWithdrawalParams p
  ⟨p', buildRequest apiKey apiSecret .post
    ("/account/" ++ (jsGet p' "symbol").toStr ++ "/withdraw/apply") true
    (some p') nonce⟩

/-- The `getBalance` wrapper (GET `/account/` + optional symbol + `/balance`,
signed): no parameter mapping is passed to the dispatcher. -/
def getBalance (apiKey apiSecret : String) (p : Params) (nonce : Nat) :
    WrapperCall :=
  ⟨p, buildRequest apiKey apiSecret .get
    ("/account/" ++
      (if (jsGet p "symbol").truthy then (jsGet p "symbol").toStr ++ "/"
       else "") ++ "balance") true none nonce⟩

/-- The `getDepositAddress` wrapper (GET
`/account/` + symbol + `/wallet/address`, signed): no parameter mapping is
passed to the dispatcher. -/
def getDepositAddress (apiKey apiSecret : String) (p : Params) (nonce : Nat) :
    WrapperCall :=
  ⟨p, buildRequest apiKey apiSecret .get
    ("/account/" ++ (jsGet p "symbol").toStr ++ "/wallet/address") true
    none nonce⟩

/-- The `getTicker` wrapper (GET `/` + pair + `/open/tick`, unsigned): no
parameter mapping is passed to the dispatcher. -/
def getTicker (apiKey apiSecret : String) (p : Params) (nonce : Nat) :
    WrapperCall :=
  ⟨p, buildRequest apiKey apiSecret .get
    ("/" ++ (jsGet p "pair").toStr ++ "/open/tick") false none nonce⟩

/-- Parameter mutation of `getPromotionRewardSummary`:
`params.coin = (params.symbol ? params.symbol : '')`. -/
def getPromotionRewardSummaryParams (p : Params) : Params :=
  jsSet p "coin"
    (if (jsGet p "symbol").truthy then jsGet p "symbol" else .str "")

/-- The `getPromotionRewardSummary` wrapper (GET
`/account/` + optional symbol + `/promotion/sum`, signed): it mutates the
caller's mapping but passes no mapping to the dispatcher; the path test is
`params.symbol != undefined`, not truthiness. -/
def getPromotionRewardSummary (apiKey apiSecret : String) (p : Params)
    (nonce : Nat) : WrapperCall :=
  let p' := getPromotionRewardSummaryParams p
  ⟨p', buildRequest apiKey apiSecret .get
    ("/account/" ++
      (if jsGet p' "symbol" = JVal.undef then ""
       else (jsGet p' "symbol").toStr ++ "/") ++ "promotion/sum") true
    none nonce⟩

/-- The `getTradingSymbols` wrapper (GET `/market/open/symbols`, unsigned,
no parameters). -/
def getTradingSymbols (apiKey apiSecret : String) (nonce : Nat) : OutRequest :=
  buildRequest apiKey apiSecret .get "/market/open/symbols" false none nonce

/-! ### Properties of the lexicographic order on code-unit lists -/

/-- Unfolding characterization of `natListLe` on two cons cells. -/
theorem natListLe_cons_iff (x y : Nat) (xs ys : List Nat) :
    natListLe (x :: xs) (y :: ys) = true ↔
      x < y ∨ (x = y ∧ natListLe xs ys = true) := by
  simp only [natListLe]
  by_cases h1 : x < y
  · simp [h1]
  · by_cases h2 : y < x
    · simp only [if_neg h1, if_pos h2, Bool.false_eq_true, false_iff]
      rintro (h | ⟨h, -⟩) <;> omega
    · have hxy : x = y := by omega
      subst hxy
      simp only [if_neg h1, if_neg h2]
      simp

/-- The order `natListLe` is total. -/
theorem natListLe_total (a b : List Nat) :
    natListLe a b = true ∨ natListLe b a = true := by
  induction a generalizing b with
  | nil => exact Or.inl rfl
  | cons x xs ih =>
    cases b with
    | nil => exact Or.inr rfl
    | cons y ys =>
      rcases Nat.lt_trichotomy x y with h | h | h
      · exact Or.inl ((natListLe_cons_iff ..).mpr (Or.inl h))
      · rcases ih ys with h' | h'
        · exact Or.inl ((natListLe_cons_iff ..).mpr (Or.inr ⟨h, h'⟩))
        · exact Or.inr ((natListLe_cons_iff ..).mpr (Or.inr ⟨h.symm, h'⟩))
      · exact Or.inr ((natListLe_cons_iff ..).mpr (Or.inl h))

/-- The order `natListLe` is transitive. -/
theorem natListLe_trans (a b c : List Nat) (hab : natListLe a b = true)
    (hbc : natListLe b c = true) : natListLe a c = true := by
  induction a generalizing b c with
  | nil => rfl
  | cons x xs ih =>
    cases b with
    | nil => simp [natListLe] at hab
    | cons y ys =>
      cases c with
      | nil => simp [natListLe] at hbc
      | cons z zs =>
        rw [natListLe_cons_iff] at hab hbc ⊢
        rcases hab with h | ⟨h, h'⟩ <;> rcases hbc with g | ⟨g, g'⟩
        · exact Or.inl (by omega)
        · exact Or.inl (by omega)
        · exact Or.inl (by omega)
        · exact Or.inr ⟨by omega, ih ys zs h' g'⟩

/-- The order `natListLe` is antisymmetric. -/
theorem natListLe_antisymm (a b : List Nat) (hab : natListLe a b = true)
    (hba : natListLe b a = true) : a = b := by
  induction a generalizing b with
  | nil =>
    cases b with
    | nil => rfl
    | cons y ys => simp [natListLe] at hba
  | cons x xs ih =>
    cases b with
    | nil => simp [natListLe] at hab
    | cons y ys =>
      rw [natListLe_cons_iff] at hab hba
      have hx : x = y := by
        rcases hab with h | ⟨h, -⟩ <;> rcases hba with g | ⟨g, -⟩ <;> omega
      subst hx
      have h1 : natListLe xs ys = true := by
        rcases hab with h | ⟨-, h'⟩
        · exact absurd h (Nat.lt_irrefl x)
        · exact h'
      have h2 : natListLe ys xs = true := by
        rcases hba with h | ⟨-, h'⟩
        · exact absurd h (Nat.lt_irrefl x)
        · exact h'
      rw [ih ys h1 h2]

/-! ### Injectivity of the UTF-16 encoding -/

/-- Valid Unicode scalar values avoid the surrogate block and stay below
0x110000; this is carried by every `Char`. -/
theorem char_valid_nat (c : Char) :
    c.toNat < 55296 ∨ (57343 < c.toNat ∧ c.toNat < 1114112) := c.valid

/-- Characters with equal scalar values are equal. -/
theorem char_eq_of_toNat_eq {c d : Char} (h : c.toNat = d.toNat) : c = d := by
  rw [← Char.ofNat_toNat c, ← Char.ofNat_toNat d, h]

/-- Shape of the UTF-16 encoding of one character: a single unit outside the
surrogate range for the basic plane, or a high/low surrogate pair. -/
theorem utf16_head_cases (c : Char) :
    (c.toNat < 65536 ∧ utf16EncodeChar c = [c.toNat] ∧
      (c.toNat < 55296 ∨ 57343 < c.toNat)) ∨
    (65536 ≤ c.toNat ∧
      utf16EncodeChar c =
        [55296 + (c.toNat - 65536) / 1024, 56320 + (c.toNat - 65536) % 1024] ∧
      c.toNat - 65536 < 1048576) := by
  have hv := char_valid_nat c
  by_cases h : c.toNat < 65536
  · exact Or.inl ⟨h, by simp [utf16EncodeChar, h], by omega⟩
  · exact Or.inr ⟨by omega, by simp [utf16EncodeChar, h], by omega⟩

/-- The UTF-16 encoding of a character is never empty. -/
theorem utf16EncodeChar_ne_nil (c : Char) : utf16EncodeChar c ≠ [] := by
  rcases utf16_head_cases c with ⟨-, h, -⟩ | ⟨-, h, -⟩ <;> simp [h]

/-- The UTF-16 code-unit sequence determines the character sequence: the
encoding is a prefix code, discriminated by whether the leading unit lies in
the high-surrogate range. -/
theorem utf16List_injective :
    ∀ l₁ l₂ : List Char, utf16List l₁ = utf16List l₂ → l₁ = l₂
  | [], [], _ => rfl
  | [], c :: cs, h => by
    exfalso
    simp only [utf16List] at h
    rcases List.append_eq_nil.mp h.symm with ⟨h1, -⟩
    exact utf16EncodeChar_ne_nil c h1
  | c :: cs, [], h => by
    exfalso
    simp only [utf16List] at h
    rcases List.append_eq_nil.mp h with ⟨h1, -⟩
    exact utf16EncodeChar_ne_nil c h1
  | c :: cs, d :: ds, h => by
    simp only [utf16List] at h
    rcases utf16_head_cases c with ⟨hc1, hc2, hc3⟩ | ⟨hc1, hc2, hc3⟩ <;>
      rcases utf16_head_cases d with ⟨hd1, hd2, hd3⟩ | ⟨hd1, hd2, hd3⟩ <;>
        rw [hc2, hd2] at h <;>
          simp only [List.cons_append, List.nil_append, List.cons.injEq] at h
    · exact by
        rw [char_eq_of_toNat_eq h.1, utf16List_injective cs ds h.2]
    · exact absurd h.1 (by omega)
    · exact absurd h.1 (by omega)
    · have hn : c.toNat = d.toNat := by
        have e1 := h.1
        have e2 := h.2.1
        omega
      rw [char_eq_of_toNat_eq hn, utf16List_injective cs ds h.2.2]

/-- Strings with equal UTF-16 code-unit sequences are equal. -/
theorem string_eq_of_utf16 {a b : String} (h : utf16Units a = utf16Units b) :
    a = b := by
  apply String.ext
  exact utf16List_injective a.data b.data h

/-! ### Order instances for the JavaScript string order -/

instance : IsTotal String jsLe :=
  ⟨fun a b => natListLe_total (utf16Units a) (utf16Units b)⟩

instance : IsTrans String jsLe :=
  ⟨fun a b c => natListLe_trans (utf16Units a) (utf16Units b) (utf16Units c)⟩

instance : IsAntisymm String jsLe :=
  ⟨fun a b hab hba =>
    string_eq_of_utf16 (natListLe_antisymm (utf16Units a) (utf16Units b) hab hba)⟩

/-! ### Small facts about property access -/

/-- Reading a key right after writing it yields the written value. -/
theorem jsGet_jsSet_self (p : Params) (k : String) (v : JVal) :
    jsGet (jsSet p k v) k = v := by
  induction p with
  | nil => simp [jsSet, jsGet]
  | cons kv rest ih =>
    by_cases h : kv.1 = k
    · simp [jsSet, jsGet, h]
    · simp [jsSet, jsGet, h, ih]

/-- Reading a key distinct from the written key is unaffected by the write. -/
theorem jsGet_jsSet_other (p : Params) (k k' : String) (v : JVal)
    (h : k' ≠ k) : jsGet (jsSet p k v) k' = jsGet p k' := by
  have h2 : ¬(k = k') := fun e => h e.symm
  induction p with
  | nil => simp [jsSet, jsGet, h2]
  | cons kv rest ih =>
    by_cases hk : kv.1 = k
    · simp [jsSet, jsGet, hk, h2]
    · simp [jsSet, jsGet, hk, ih]

/-- A request built with no parameter mapping has no query-string suffix. -/
theorem buildRequest_none_path (apiKey apiSecret : String) (method : Method)
    (endpoint : String) (signed : Bool) (nonce : Nat) :
    (buildRequest apiKey apiSecret method endpoint signed none nonce).options.path =
      pathPrefix ++ endpoint := by
  simp [buildRequest, canonicalQueryString]

/-! ### The claims -/

/-- C1: for every path string, canonical query string, nonce, and secret,
the signature equals the lowercase hex encoding of the SHA-256 HMAC, keyed
by the secret, of the base64 encoding of the UTF-8 bytes of the
concatenation path, slash, nonce, slash, query string; and the HMAC is taken
over the base64 text, not over the raw pre-encoded string, witnessed by the
two digests differing at a concrete vector. -/
theorem C1_signature_definition (secret path qs : String) (nonce : Nat) :
    getSignature secret path qs nonce = signatureSpec secret path qs nonce ∧
    getSignature "secret" "/v1/order" "amount=5&price=0.6&symbol=GAS-NEO"
        1509590207497 ≠
      hexEncode (hmacSha256 (utf8Bytes "secret")
        (utf8Bytes
          (strForSign "/v1/order" "amount=5&price=0.6&symbol=GAS-NEO"
            1509590207497))) :=
  ⟨rfl, by decide⟩

/-- C2 counterexample: the claim words the sort order as byte-value
(UTF-8) lexicographic, but JavaScript's default sort compares UTF-16 code
units; at the mapping with keys U+FFFF and U+10000 the two orders disagree,
so the canonical query string the code produces differs from the
byte-value-sorted one the claim describes. -/
theorem C2_canonicalization_counterexample :
    canonicalQueryString
        (some [(String.mk [Char.ofNat 65535], .num 1),
               (String.mk [Char.ofNat 65536], .num 2)]) ≠
      canonicalQueryStringSpec
        (some [(String.mk [Char.ofNat 65535], .num 1),
               (String.mk [Char.ofNat 65536], .num 2)]) := by
  decide

/-- C2 (amended): for every parameter mapping, the canonical query string
is obtained by formatting each entry as key=value, sorting the resulting
strings lexicographically by UTF-16 code-unit value (JavaScript's default
string order, which agrees with byte-value order on ASCII strings), and
joining with ampersands; the empty and the absent mapping produce the empty
string; the mapping b=2, a=1 canonicalizes to "a=1&b=2". -/
theorem C2_canonicalization (ps : Params) :
    (∃ l, l.Sorted jsLe ∧ (ps.map formatEntry).Perm l ∧
        canonicalQueryString (some ps) = String.intercalate "&" l) ∧
    canonicalQueryString none = "" ∧
    canonicalQueryString (some []) = "" ∧
    canonicalQueryString (some [("b", .num 2), ("a", .num 1)]) = "a=1&b=2" :=
  ⟨⟨List.insertionSort jsLe (ps.map formatEntry),
    List.sorted_insertionSort jsLe _,
    (List.perm_insertionSort jsLe _).symm, rfl⟩, rfl, rfl, by decide⟩

/-- C3: the canonical query string depends only on the set of entries:
mappings holding the same entries in different insertion orders canonicalize
to the same string. -/
theorem C3_order_independence (l₁ l₂ : Params) (h : l₁.Perm l₂) :
    canonicalQueryString (some l₁) = canonicalQueryString (some l₂) := by
  have he : ∀ l : Params, canonicalQueryString (some l) =
      String.intercalate "&" (List.insertionSort jsLe (l.map formatEntry)) :=
    fun _ => rfl
  rw [he, he]
  congr 1
  refine List.eq_of_perm_of_sorted ?_ (List.sorted_insertionSort jsLe _)
    (List.sorted_insertionSort jsLe _)
  exact ((List.perm_insertionSort jsLe _).trans (h.map formatEntry)).trans
    (List.perm_insertionSort jsLe _).symm

/-- Witness for C3 at the spec's example mapping, inserted in both orders. -/
theorem C3_order_independence_witness :
    List.Perm [(("b" : String), JVal.num 2), ("a", JVal.num 1)]
        [("a", JVal.num 1), ("b", JVal.num 2)] ∧
    canonicalQueryString (some [("b", .num 2), ("a", .num 1)]) =
      canonicalQueryString (some [("a", .num 1), ("b", .num 2)]) :=
  ⟨List.Perm.swap _ _ _, C3_order_independence _ _ (List.Perm.swap _ _ _)⟩

/-- C4: dispatch with signed false attaches only the content-type header
and none of the auth headers; dispatch with signed true attaches the API
key, nonce and signature headers plus content-type, and the nonce in the
nonce header is the very value embedded in the signature computation. -/
theorem C4_dispatch_headers (apiKey apiSecret : String) (method : Method)
    (endpoint : String) (params : Option Params) (nonce : Nat) :
    ((buildRequest apiKey apiSecret method endpoint false params
          nonce).options.headers = [contentTypeHeader] ∧
      ∀ k v, (k, v) ∈ (buildRequest apiKey apiSecret method endpoint false
            params nonce).options.headers → k = "Content-Type") ∧
    (buildRequest apiKey apiSecret method endpoint true params
        nonce).options.headers =
      [contentTypeHeader,
       ("KC-API-KEY", apiKey),
       ("KC-API-NONCE", toString nonce),
       ("KC-API-SIGNATURE",
         getSignature apiSecret (pathPrefix ++ endpoint)
           (canonicalQueryString params) nonce)] := by
  refine ⟨⟨rfl, ?_⟩, rfl⟩
  intro k v hkv
  have hm : (k, v) ∈ [contentTypeHeader] := hkv
  simp only [contentTypeHeader, List.mem_singleton, Prod.mk.injEq] at hm
  exact hm.1

/-- C5: a transport failure rejects with the underlying transport error
unchanged; a decoded envelope with success false rejects with the full
envelope; an envelope with success true resolves with the full envelope;
the transport is consulted exactly once per call with no retry, and the
transport and API kinds are the only two failure kinds. -/
theorem C5_outcomes {ε δ : Type} (apiKey apiSecret : String) (method : Method)
    (endpoint : String) (signed : Bool) (params : Option Params) (nonce : Nat)
    (transport : OutRequest → Except ε (Envelope δ)) :
    rawRequest apiKey apiSecret method endpoint signed params nonce transport =
      handleResponse (transport
        (buildRequest apiKey apiSecret method endpoint signed params nonce)) ∧
    (∀ e : ε, handleResponse (δ := δ) (.error e) = .error (.transport e)) ∧
    (∀ obj : Envelope δ, obj.success = false →
      handleResponse (ε := ε) (.ok obj) = .error (.api obj)) ∧
    (∀ obj : Envelope δ, obj.success = true →
      handleResponse (ε := ε) (.ok obj) = .ok obj) ∧
    (∀ f : CallFailure ε δ, (∃ e, f = .transport e) ∨ ∃ env, f = .api env) := by
  refine ⟨rfl, fun e => rfl, fun obj h => ?_, fun obj h => ?_, fun f => ?_⟩
  · simp [handleResponse, h]
  · simp [handleResponse, h]
  · cases f with
    | transport e => exact Or.inl ⟨e, rfl⟩
    | api env => exact Or.inr ⟨env, rfl⟩

/-- Witness for C5: concrete envelopes through the response handler. -/
theorem C5_outcomes_witness :
    (Envelope.success ⟨false, "UNAUTH", "Signature verification failed", 0,
        (0 : Nat)⟩ = false) ∧
    handleResponse (ε := Nat)
        (.ok ⟨false, "UNAUTH", "Signature verification failed", 0, (0 : Nat)⟩) =
      .error (.api ⟨false, "UNAUTH", "Signature verification failed", 0, 0⟩) ∧
    handleResponse (ε := Nat)
        (.ok ⟨true, "OK", "Operation succeeded.", 0, (5 : Nat)⟩) =
      .ok ⟨true, "OK", "Operation succeeded.", 0, 5⟩ ∧
    handleResponse (ε := Nat) (δ := Nat) (.error 42) = .error (.transport 42) :=
  ⟨rfl,
   (C5_outcomes "k" "s" .get "/e" false none 0 fun _ => .error 42).2.2.1 _ rfl,
   (C5_outcomes "k" "s" .get "/e" false none 0 fun _ => .error 42).2.2.2.1 _ rfl,
   (C5_outcomes "k" "s" .get "/e" false none 0 fun _ => .error 42).2.1 42⟩

/-- C6: signature computation is a pure, repeatable function of its four
inputs, and at the example vector changing any single one of the four inputs
changes the hex output. -/
theorem C6_signature_sensitivity (secret path qs : String) (nonce : Nat) :
    getSignature secret path qs nonce = getSignature secret path qs nonce ∧
    getSignature "secret" "/v1/order" "amount=5&price=0.6&symbol=GAS-NEO"
        1509590207497 ≠
      getSignature "secret" "/v1/orderx" "amount=5&price=0.6&symbol=GAS-NEO"
        1509590207497 ∧
    getSignature "secret" "/v1/order" "amount=5&price=0.6&symbol=GAS-NEO"
        1509590207497 ≠
      getSignature "secret" "/v1/order" "amount=6&price=0.6&symbol=GAS-NEO"
        1509590207497 ∧
    getSignature "secret" "/v1/order" "amount=5&price=0.6&symbol=GAS-NEO"
        1509590207497 ≠
      getSignature "secret" "/v1/order" "amount=5&price=0.6&symbol=GAS-NEO"
        1509590207498 ∧
    getSignature "secret" "/v1/order" "amount=5&price=0.6&symbol=GAS-NEO"
        1509590207497 ≠
      getSignature "secretx" "/v1/order" "amount=5&price=0.6&symbol=GAS-NEO"
        1509590207497 :=
  ⟨rfl, by decide, by decide, by decide, by decide⟩

/-- C7: the full request path is the fixed version prefix concatenated with
the endpoint path, with a question mark and the canonical query string
appended exactly when the query string is nonempty; getTradingSymbols
issues GET /v1/market/open/symbols with only a content-type header. -/
theorem C7_request_path (apiKey apiSecret : String) (method : Method)
    (endpoint : String) (signed : Bool) (params : Option Params) (nonce : Nat) :
    (canonicalQueryString params = "" →
      (buildRequest apiKey apiSecret method endpoint signed params
          nonce).options.path = pathPrefix ++ endpoint) ∧
    (canonicalQueryString params ≠ "" →
      (buildRequest apiKey apiSecret method endpoint signed params
          nonce).options.path =
        pathPrefix ++ endpoint ++ ("?" ++ canonicalQueryString params)) ∧
    (getTradingSymbols apiKey apiSecret nonce).options.path =
      "/v1/market/open/symbols" ∧
    (getTradingSymbols apiKey apiSecret nonce).options.headers =
      [contentTypeHeader] := by
  refine ⟨fun h => ?_, fun h => ?_, rfl, rfl⟩
  · simp [buildRequest, h]
  · simp [buildRequest, h]

/-- Witness for C7: an empty-query request keeps the bare path, a nonempty
one gains the question mark and query. -/
theorem C7_request_path_witness :
    canonicalQueryString none = "" ∧
    (buildRequest "k" "s" .get "/market/open/symbols" false none
        3).options.path = pathPrefix ++ "/market/open/symbols" ∧
    canonicalQueryString (some [("a", JVal.num 1)]) ≠ "" ∧
    (buildRequest "k" "s" .get "/e" false (some [("a", JVal.num 1)])
        3).options.path =
      pathPrefix ++ "/e" ++ ("?" ++ canonicalQueryString (some [("a", JVal.num 1)])) :=
  ⟨rfl,
   (C7_request_path "k" "s" .get "/market/open/symbols" false none 3).1 rfl,
   by decide,
   (C7_request_path "k" "s" .get "/e" false (some [("a", JVal.num 1)]) 3).2.1
     (by decide)⟩

/-- C8: requests carry no parameters in the body: GET requests have no
body, POST requests carry the empty object, and the body never depends on
the parameter mapping. -/
theorem C8_body (apiKey apiSecret : String) (endpoint : String)
    (signed : Bool) (params : Option Params) (nonce : Nat) :
    (buildRequest apiKey apiSecret .get endpoint signed params nonce).body =
      .noBody ∧
    (buildRequest apiKey apiSecret .post endpoint signed params nonce).body =
      .emptyObject ∧
    ∀ (method : Method) (params' : Option Params),
      (buildRequest apiKey apiSecret method endpoint signed params nonce).body =
        (buildRequest apiKey apiSecret method endpoint signed params'
          nonce).body := by
  refine ⟨rfl, rfl, fun method params' => ?_⟩
  cases method <;> rfl

/-- C9: three wrappers mutate the caller-supplied mapping before dispatch:
getExchangeRates writes `coins` with the comma join of `symbols` or the
empty string, createOrder writes `symbol` with the value of `pair`, and
createWithdrawal writes `coin` with the value of `symbol`; each dispatches
with the mutated mapping, which is the caller's own object. The hypothesis
confines `symbols` to its documented type, an array or absent. -/
theorem C9_wrapper_mutations (apiKey apiSecret : String) (p : Params)
    (nonce : Nat)
    (hsym : jsGet p "symbols" = .undef ∨ ∃ xs, jsGet p "symbols" = .arr xs) :
    (jsGet (getExchangeRates apiKey apiSecret p nonce).callerParams "coins" =
        .str (match jsGet p "symbols" with
              | .arr xs => String.intercalate "," xs
              | _ => "") ∧
      (getExchangeRates apiKey apiSecret p nonce).request =
        buildRequest apiKey apiSecret .get "/open/currencies" false
          (some (getExchangeRates apiKey apiSecret p nonce).callerParams)
          nonce) ∧
    (jsGet (createOrder apiKey apiSecret p nonce).callerParams "symbol" =
        jsGet p "pair" ∧
      (createOrder apiKey apiSecret p nonce).request =
        buildRequest apiKey apiSecret .post "/order" true
          (some (createOrder apiKey apiSecret p nonce).callerParams) nonce) ∧
    (jsGet (createWithdrawal apiKey apiSecret p nonce).callerParams "coin" =
        jsGet p "symbol" ∧
      (createWithdrawal apiKey apiSecret p nonce).request =
        buildRequest apiKey apiSecret .post
          ("/account/" ++ (jsGet p "symbol").toStr ++ "/withdraw/apply") true
          (some (createWithdrawal apiKey apiSecret p nonce).callerParams)
          nonce) := by
  refine ⟨⟨?_, rfl⟩, ⟨jsGet_jsSet_self .., rfl⟩, ⟨jsGet_jsSet_self .., ?_⟩⟩
  · show jsGet (getExchangeRatesParams p) "coins" = _
    unfold getExchangeRatesParams
    rw [jsGet_jsSet_self]
    rcases hsym with h | ⟨xs, h⟩ <;> rw [h] <;> rfl
  · have hs : jsGet (createWithdrawalParams p) "symbol" = jsGet p "symbol" :=
      jsGet_jsSet_other p "coin" "symbol" (jsGet p "symbol") (by decide)
    calc (createWithdrawal apiKey apiSecret p nonce).request
        = buildRequest apiKey apiSecret .post
            ("/account/" ++ (jsGet (createWithdrawalParams p) "symbol").toStr ++
              "/withdraw/apply") true (some (createWithdrawalParams p))
            nonce := rfl
      _ = _ := by rw [hs]; rfl

/-- Witness for C9 at a concrete mapping carrying `symbols`, `pair` and
`symbol` entries. -/
theorem C9_wrapper_mutations_witness :
    (jsGet [("symbols", JVal.arr ["NEO", "GAS"]), ("pair", JVal.str "GAS-NEO"),
            ("symbol", JVal.str "NEO")] "symbols" = .undef ∨
      ∃ xs, jsGet [("symbols", JVal.arr ["NEO", "GAS"]),
            ("pair", JVal.str "GAS-NEO"), ("symbol", JVal.str "NEO")]
          "symbols" = .arr xs) ∧
    jsGet (getExchangeRates "k" "s"
        [("symbols", JVal.arr ["NEO", "GAS"]), ("pair", JVal.str "GAS-NEO"),
         ("symbol", JVal.str "NEO")] 1).callerParams "coins" =
      .str "NEO,GAS" ∧
    jsGet (createOrder "k" "s"
        [("symbols", JVal.arr ["NEO", "GAS"]), ("pair", JVal.str "GAS-NEO"),
         ("symbol", JVal.str "NEO")] 1).callerParams "symbol" =
      .str "GAS-NEO" ∧
    jsGet (createWithdrawal "k" "s"
        [("symbols", JVal.arr ["NEO", "GAS"]), ("pair", JVal.str "GAS-NEO"),
         ("symbol", JVal.str "NEO")] 1).callerParams "coin" = .str "NEO" :=
  ⟨Or.inr ⟨["NEO", "GAS"], rfl⟩,
   (C9_wrapper_mutations "k" "s"
      [("symbols", JVal.arr ["NEO", "GAS"]), ("pair", JVal.str "GAS-NEO"),
       ("symbol", JVal.str "NEO")] 1 (Or.inr ⟨["NEO", "GAS"], rfl⟩)).1.1,
   (C9_wrapper_mutations "k" "s"
      [("symbols", JVal.arr ["NEO", "GAS"]), ("pair", JVal.str "GAS-NEO"),
       ("symbol", JVal.str "NEO")] 1 (Or.inr ⟨["NEO", "GAS"], rfl⟩)).2.1.1,
   (C9_wrapper_mutations "k" "s"
      [("symbols", JVal.arr ["NEO", "GAS"]), ("pair", JVal.str "GAS-NEO"),
       ("symbol", JVal.str "NEO")] 1 (Or.inr ⟨["NEO", "GAS"], rfl⟩)).2.2.1⟩

/-- C10: getBalance, getDepositAddress, getTicker and
getPromotionRewardSummary pass no parameter mapping to the dispatcher, so
their outgoing requests carry an empty query string and a bare
prefix-plus-endpoint path; getPromotionRewardSummary still writes a `coin`
key into the caller's mapping that is never transmitted; provided
parameters only reach the interpolated path. -/
theorem C10_no_params (apiKey apiSecret : String) (p : Params) (nonce : Nat) :
    canonicalQueryString none = "" ∧
    ((getBalance apiKey apiSecret p nonce).request =
        buildRequest apiKey apiSecret .get
          ("/account/" ++
            (if (jsGet p "symbol").truthy then (jsGet p "symbol").toStr ++ "/"
             else "") ++ "balance") true none nonce ∧
      (getBalance apiKey apiSecret p nonce).request.options.path =
        pathPrefix ++ ("/account/" ++
          (if (jsGet p "symbol").truthy then (jsGet p "symbol").toStr ++ "/"
           else "") ++ "balance")) ∧
    ((getDepositAddress apiKey apiSecret p nonce).request =
        buildRequest apiKey apiSecret .get
          ("/account/" ++ (jsGet p "symbol").toStr ++ "/wallet/address") true
          none nonce ∧
      (getDepositAddress apiKey apiSecret p nonce).request.options.path =
        pathPrefix ++
          ("/account/" ++ (jsGet p "symbol").toStr ++ "/wallet/address")) ∧
    ((getTicker apiKey apiSecret p nonce).request =
        buildRequest apiKey apiSecret .get
          ("/" ++ (jsGet p "pair").toStr ++ "/open/tick") false none nonce ∧
      (getTicker apiKey apiSecret p nonce).request.options.path =
        pathPrefix ++ ("/" ++ (jsGet p "pair").toStr ++ "/open/tick")) ∧
    ((getPromotionRewardSummary apiKey apiSecret p nonce).request =
        buildRequest apiKey apiSecret .get
          ("/account/" ++
            (if jsGet (getPromotionRewardSummaryParams p) "symbol" = JVal.undef
             then ""
             else (jsGet (getPromotionRewardSummaryParams p) "symbol").toStr ++
               "/") ++ "promotion/sum") true none nonce ∧
      jsGet (getPromotionRewardSummary apiKey apiSecret p
          nonce).callerParams "coin" =
        (if (jsGet p "symbol").truthy then jsGet p "symbol" else .str "")) :=
  ⟨rfl,
   ⟨rfl, buildRequest_none_path ..⟩,
   ⟨rfl, buildRequest_none_path ..⟩,
   ⟨rfl, buildRequest_none_path ..⟩,
   ⟨rfl, jsGet_jsSet_self ..⟩⟩

/-! ### Validation vectors

Known-answer tests pinning the embedded primitives to their standards:
FIPS 180-4 for SHA-256, RFC 4231 for HMAC-SHA-256, RFC 4648 for base64, and
a full client signature cross-checked against an independent
implementation. -/

/-- FIPS 180-4 known answer: SHA-256 of the ASCII string abc. -/
theorem sha256_fips_vector :
    hexEncode (sha256 (utf8Bytes "abc")) =
      "ba7816bf8f01cfea414140de5dae2223b00361a396177a9cb410ff61f20015ad" := by
  decide

/-- RFC 4231 test case 2: HMAC-SHA-256 with the key Jefe. -/
theorem hmacSha256_rfc4231_vector :
    hexEncode
        (hmacSha256 (utf8Bytes "Jefe")
          (utf8Bytes "what do ya want for nothing?")) =
      "5bdcc146bf60754e6a042426089575c75a003f089d2739839dec58b964ec3843" := by
  decide

/-- Base64 known answer for a full string to sign. -/
theorem base64_vector :
    base64Encode
        (utf8Bytes "/v1/order/1509590207497/amount=5&price=0.6&symbol=GAS-NEO") =
      "L3YxL29yZGVyLzE1MDk1OTAyMDc0OTcvYW1vdW50PTUmcHJpY2U9MC42JnN5bWJvbD1HQVMtTkVP" := by
  decide

/-- End-to-end signature known answer, cross-checked against an independent
HMAC implementation. -/
theorem getSignature_vector :
    getSignature "secret" "/v1/order" "amount=5&price=0.6&symbol=GAS-NEO"
        1509590207497 =
      "7c0bb820f330278c863daf5ed87cf56fdff05fd33534309d034a95bf7e4f7768" := by
  decide

end Kucoin
